import Mathlib

/-!
Shallow embedding of the ignition firmware (src/FIRMWARE/main.c) for the
ROCKSANNE I-X board, together with proofs of its specified properties.

The firmware runs on a PIC 16F1824: after peripheral initialization and a
short LED self-test blink, it loops forever, counting pulses on the TMR1
clock pin during a ~1000 ms window, classifying the 16-bit count into one
of three frequency bands, and driving two indicator LEDs plus the MOS gate
that fires the spark plug.

The embedding keeps the source structure: the three output latches
(`LED_IGNITION` = LATC0, `LED_LINK` = LATC1, `MOS_GATE` = LATC5) become the
fields of `OutputState`; the TMR1 register pair (TMR1H:TMR1L, a 16-bit
counter) becomes the natural-number field `tmr1` kept below 2^16; each
branch of the steady-state `if`/`else if`/`else` becomes a function on
`OutputState` performing the same latch writes in the same order; the loop
body becomes `cycleT`, which also emits the cycle's event trace so that
ordering properties (disable-before-read, reset-before-enable) can be
stated.  The environment's contribution in a cycle is a single natural
number `p`: the number of clock edges arriving while the counter is
enabled.
-/

namespace Ignition

/-- `IGNITION_MIN` from main.c: minimum count accepted for spark ignition. -/
def IGNITION_MIN : Nat := 300

/-- `IGNITION_MAX` from main.c: maximum count accepted for spark ignition. -/
def IGNITION_MAX : Nat := 600

/-- `YODA_MIN` from main.c: minimum count accepted for the link check. -/
def YODA_MIN : Nat := 4500

/-- `YODA_MAX` from main.c: maximum count accepted for the link check. -/
def YODA_MAX : Nat := 5500

/-- The three output latches written by the firmware:
`LED_IGNITION` (LATC0), `LED_LINK` (LATC1) and `MOS_GATE` (LATC5). -/
structure OutputState where
  ignitionLed : Bool
  linkLed : Bool
  mosGate : Bool
deriving DecidableEq, Repr

/-- The three operating states distinguished by the steady-state loop's
`if freq >= IGNITION_MIN && freq <= IGNITION_MAX` / `else if freq >= YODA_MIN
&& freq <= YODA_MAX` / `else` chain (main.c lines 368-385). -/
inductive FrequencyBand where
  | IGNITION
  | LINK_OK
  | IDLE
deriving DecidableEq, Repr

/-- Which branch of the steady-state `if`/`else if`/`else` chain a given
`freq` value selects (main.c lines 368, 374, 380). -/
def classify (freq : Nat) : FrequencyBand :=
  if IGNITION_MIN ≤ freq ∧ freq ≤ IGNITION_MAX then FrequencyBand.IGNITION
  else if YODA_MIN ≤ freq ∧ freq ≤ YODA_MAX then FrequencyBand.LINK_OK
  else FrequencyBand.IDLE

/-- Body of the ignition branch (main.c lines 370-372):
`LED_IGNITION = ON; LED_LINK = OFF; MOS_GATE = ON;`. -/
def ignitionBranch (o : OutputState) : OutputState :=
  let o1 := { o with ignitionLed := true }
  let o2 := { o1 with linkLed := false }
  { o2 with mosGate := true }

/-- Body of the link-check branch (main.c lines 376-378):
`LED_IGNITION = OFF; LED_LINK = ~LED_LINK; MOS_GATE = OFF;`
(`~` on the one-bit latch toggles it). -/
def linkBranch (o : OutputState) : OutputState :=
  let o1 := { o with ignitionLed := false }
  let o2 := { o1 with linkLed := !o1.linkLed }
  { o2 with mosGate := false }

/-- Body of the waiting branch (main.c lines 382-384):
`LED_IGNITION = OFF; MOS_GATE = OFF; LED_LINK = ON;`. -/
def idleBranch (o : OutputState) : OutputState :=
  let o1 := { o with ignitionLed := false }
  let o2 := { o1 with mosGate := false }
  { o2 with linkLed := true }

/-- The whole `if`/`else if`/`else` output-driving chain of the steady-state
loop (main.c lines 368-385), as a function of the `freq` just read and the
current latch state. -/
def driveOutputs (freq : Nat) (o : OutputState) : OutputState :=
  if IGNITION_MIN ≤ freq ∧ freq ≤ IGNITION_MAX then ignitionBranch o
  else if YODA_MIN ≤ freq ∧ freq ≤ YODA_MAX then linkBranch o
  else idleBranch o

/-- Recovery of the 16-bit count from the register pair (main.c lines
365-366): `freq = TMR1H; freq = ((freq<<8)|(TMR1L));`.  `t` is the counter
value, `t / 256` its high byte TMR1H and `t % 256` its low byte TMR1L. -/
def readTMR1 (t : Nat) : Nat :=
  let h := t / 256
  let l := t % 256
  (h <<< 8) ||| l

/-- Machine state threaded through the embedding: the 16-bit TMR1 counter,
the TMR1ON enable bit, the LATA4 `INPUT_DISABLE` latch, the global
`unsigned int freq` variable and the three output latches. -/
structure MState where
  tmr1 : Nat
  tmr1on : Bool
  inputDisable : Bool
  freq : Nat
  out : OutputState
deriving DecidableEq, Repr

/-- State after `init()` (main.c lines 108-319): `LATA = 0; LATC = 0` clears
all output latches, `T1CON = 0b10000100` leaves TMR1 off, and the global
`freq` starts at 0.  `init()` never writes TMR1H/TMR1L, so the counter keeps
its power-up value `t0` (reduced to the register width). -/
def initState (t0 : Nat) : MState :=
  { tmr1 := t0 % 65536
  , tmr1on := false
  , inputDisable := false
  , freq := 0
  , out := { ignitionLed := false, linkLed := false, mosGate := false } }

/-- Observable events of the startup blink loop: latch writes and calls of
`delayerMs`. -/
inductive BlinkEv where
  | setIgnitionLed (b : Bool)
  | setLinkLed (b : Bool)
  | delayMs (n : Nat)
deriving DecidableEq, Repr

/-- One iteration of the startup blink loop body (main.c lines 345-350):
`LED_IGNITION = ON; LED_LINK = OFF; delayerMs(50); LED_IGNITION = OFF;
LED_LINK = ON; delayerMs(50);`, returning the emitted events and the latch
state after the iteration. -/
def blinkBody (o : OutputState) : List BlinkEv × OutputState :=
  let o1 := { o with ignitionLed := true }
  let o2 := { o1 with linkLed := false }
  let o3 := { o2 with ignitionLed := false }
  let o4 := { o3 with linkLed := true }
  ([ BlinkEv.setIgnitionLed true, BlinkEv.setLinkLed false, BlinkEv.delayMs 50
   , BlinkEv.setIgnitionLed false, BlinkEv.setLinkLed true, BlinkEv.delayMs 50 ], o4)

/-- The startup `for(i=0;i<n;i++)` loop around `blinkBody` (main.c lines
343-351), accumulating the event trace. -/
def blinkFor (o : OutputState) : Nat → List BlinkEv × OutputState
  | 0 => ([], o)
  | n + 1 =>
      let r := blinkFor o n
      let b := blinkBody r.2
      (r.1 ++ b.1, b.2)

/-- Latch state after the 5-iteration startup blink loop. -/
def startupBlink (o : OutputState) : OutputState := (blinkFor o 5).2

/-- Event trace of the 5-iteration startup blink loop. -/
def startupTrace (o : OutputState) : List BlinkEv := (blinkFor o 5).1

/-- State at first entry into the steady-state `while(TRUE)` loop: after
`init()`, the blink loop, `TMR1H = 0; TMR1L = 0` (main.c lines 353-354) and
`INPUT_DISABLE = OFF` (line 356). -/
def preLoop (t0 : Nat) : MState :=
  let s1 := initState t0
  let s2 := { s1 with out := startupBlink s1.out }
  let s3 := { s2 with tmr1 := 0 }
  { s3 with inputDisable := false }

/-- Observable events of one steady-state cycle: writes of the TMR1ON bit,
the blocking wait, the read of the count into `freq`, the output-latch
drive, and the TMR1H/TMR1L reset. -/
inductive CycleEv where
  | setTMR1ON (b : Bool)
  | delayMs (n : Nat)
  | readFreq (v : Nat)
  | driveOut (o : OutputState)
  | resetTMR1
deriving DecidableEq, Repr

/-- One iteration of the steady-state loop body (main.c lines 360-387), with
its event trace.  `p` is the number of clock edges arriving on RA5 during
the 1000 ms window; TMR1 is a 16-bit counter, so it accumulates modulo
2^16, and it only counts while TMR1ON is set.  The steps, in source order:
`TMR1ON = ON`, `delayerMs(1000)` (counting), `TMR1ON = OFF`, the two-line
read of `freq`, the `if`/`else if`/`else` output drive, and
`TMR1H = 0; TMR1L = 0`. -/
def cycleT (s : MState) (p : Nat) : List CycleEv × MState :=
  let s1 := { s with tmr1on := true }
  let s2 := { s1 with tmr1 := if s1.tmr1on then (s1.tmr1 + p) % 65536 else s1.tmr1 }
  let s3 := { s2 with tmr1on := false }
  let s4 := { s3 with freq := readTMR1 s3.tmr1 }
  let s5 := { s4 with out := driveOutputs s4.freq s4.out }
  let s6 := { s5 with tmr1 := 0 }
  ([ CycleEv.setTMR1ON true, CycleEv.delayMs 1000, CycleEv.setTMR1ON false
   , CycleEv.readFreq s4.freq, CycleEv.driveOut s5.out, CycleEv.resetTMR1 ], s6)

/-- Machine state after one steady-state cycle. -/
def cycle (s : MState) (p : Nat) : MState := (cycleT s p).2

/-- Event trace of one steady-state cycle. -/
def cycleTrace (s : MState) (p : Nat) : List CycleEv := (cycleT s p).1

/-- The value the cycle starting in state `s` reads into `freq` when `p`
edges arrive during its window. -/
def cycleFreq (s : MState) (p : Nat) : Nat :=
  readTMR1 ((s.tmr1 + p) % 65536)

/-- Iterating the steady-state loop over a list of per-window edge counts. -/
def runCycles (s : MState) : List Nat → MState
  | [] => s
  | p :: ps => runCycles (cycle s p) ps

end Ignition

/-!
Helper lemmas shared by the claim theorems below.
-/

namespace Ignition

/-- Each steady-state cycle ends with `TMR1H = 0; TMR1L = 0`, so the counter
leaves every cycle at zero. -/
lemma cycle_tmr1 (s : MState) (p : Nat) : (cycle s p).tmr1 = 0 := rfl

/-- The latches a cycle leaves behind are the drive of the value it read
applied to the latches it started with. -/
lemma cycle_out (s : MState) (p : Nat) :
    (cycle s p).out = driveOutputs (cycleFreq s p) s.out := rfl

/-- The output-driving chain, characterised branch by branch through
`classify`. -/
lemma driveOutputs_eq (f : Nat) (o : OutputState) :
    driveOutputs f o =
      match classify f with
      | FrequencyBand.IGNITION => { ignitionLed := true, linkLed := false, mosGate := true }
      | FrequencyBand.LINK_OK => { ignitionLed := false, linkLed := !o.linkLed, mosGate := false }
      | FrequencyBand.IDLE => { ignitionLed := false, linkLed := true, mosGate := false } := by
  unfold driveOutputs classify
  split_ifs <;> rfl

/-- A cycle that opens with a zeroed counter reads exactly the edge count of
its own window (reduced to the 16-bit register width). -/
lemma cycleFreq_of_tmr1_zero (s : MState) (p : Nat) (h : s.tmr1 = 0) :
    cycleFreq s p = readTMR1 (p % 65536) := by
  simp [cycleFreq, h]

/-- A run that starts with a zeroed counter keeps it zeroed at every cycle
boundary. -/
lemma runCycles_tmr1 : ∀ (ps : List Nat) (s : MState), s.tmr1 = 0 →
    (runCycles s ps).tmr1 = 0
  | [], _, h => h
  | p :: ps, s, _ => runCycles_tmr1 ps (cycle s p) (cycle_tmr1 s p)

/-- Both non-ignition branches write `MOS_GATE = OFF`. -/
lemma driveOutputs_mosGate_false (f : Nat) (o : OutputState)
    (hf : classify f ≠ FrequencyBand.IGNITION) : (driveOutputs f o).mosGate = false := by
  rw [driveOutputs_eq]
  cases hc : classify f
  · exact absurd hc hf
  · rfl
  · rfl

/-- As long as no window classifies as IGNITION, a run started with the gate
off and the counter zeroed keeps the gate off. -/
lemma runCycles_mosGate : ∀ (ps : List Nat) (s : MState), s.tmr1 = 0 →
    s.out.mosGate = false →
    (∀ p ∈ ps, classify (readTMR1 (p % 65536)) ≠ FrequencyBand.IGNITION) →
    (runCycles s ps).out.mosGate = false
  | [], _, _, hm, _ => hm
  | p :: ps, s, h0, _, h => by
      have hm : (cycle s p).out.mosGate = false := by
        rw [cycle_out, cycleFreq_of_tmr1_zero s p h0]
        exact driveOutputs_mosGate_false _ _ (h p (List.mem_cons_self p ps))
      exact runCycles_mosGate ps (cycle s p) (cycle_tmr1 s p) hm
        (fun q hq => h q (List.mem_cons_of_mem p hq))

/-- Over `n` consecutive link-band windows the link LED ends up at its
starting value xor the parity of `n`: every such cycle toggles it once. -/
lemma linkLed_replicate (p : Nat)
    (hp : classify (readTMR1 (p % 65536)) = FrequencyBand.LINK_OK) :
    ∀ (n : Nat) (s : MState), s.tmr1 = 0 →
      (runCycles s (List.replicate n p)).out.linkLed =
        xor (decide (n % 2 = 1)) s.out.linkLed := by
  intro n
  induction n with
  | zero => intro s _; simp [runCycles]
  | succ n ih =>
      intro s h0
      rw [List.replicate_succ]
      show (runCycles (cycle s p) (List.replicate n p)).out.linkLed = _
      rw [ih (cycle s p) (cycle_tmr1 s p)]
      rw [cycle_out, cycleFreq_of_tmr1_zero s p h0, driveOutputs_eq, hp]
      show xor (decide (n % 2 = 1)) (!s.out.linkLed) = _
      have hmod : ((n + 1) % 2 = 1) ↔ ¬ (n % 2 = 1) := by omega
      by_cases hn : n % 2 = 1 <;> simp [hn, hmod]

end Ignition

/-!
The claim theorems.
-/

namespace Ignition

/-- Claim C1: in every steady-state cycle the MOS gate is asserted if and
only if that cycle's count classifies as IGNITION; in the LINK_OK and IDLE
branches it is written OFF, so the actuator never stays or defaults to ON
on ambiguous or missing input. -/
theorem mosGate_iff_ignition (s : MState) (p : Nat) :
    ((cycle s p).out.mosGate = true ↔
      classify (cycleFreq s p) = FrequencyBand.IGNITION) ∧
    (classify (cycleFreq s p) = FrequencyBand.LINK_OK → (cycle s p).out.mosGate = false) ∧
    (classify (cycleFreq s p) = FrequencyBand.IDLE → (cycle s p).out.mosGate = false) := by
  rw [cycle_out, driveOutputs_eq]
  cases hc : classify (cycleFreq s p) <;> simp

/-- Claim C1, instantiated: a link-band cycle leaves the MOS gate off. -/
theorem mosGate_iff_ignition_witness :
    (cycle { tmr1 := 0, tmr1on := false, inputDisable := false, freq := 0
           , out := { ignitionLed := false, linkLed := false, mosGate := false } }
      5000).out.mosGate = false :=
  (mosGate_iff_ignition _ 5000).2.1 (by decide)

/-- Claim C2: classification is a pure total function of the 16-bit count:
counts in [300, 600] give IGNITION, counts in [4500, 5500] give LINK_OK,
and everything else gives IDLE, with both band boundaries inclusive. -/
theorem classify_total_bands (n : Nat) (h : n ≤ 65535) :
    (classify n = FrequencyBand.IGNITION ↔ 300 ≤ n ∧ n ≤ 600) ∧
    (classify n = FrequencyBand.LINK_OK ↔ 4500 ≤ n ∧ n ≤ 5500) ∧
    (classify n = FrequencyBand.IDLE ↔
      ¬ (300 ≤ n ∧ n ≤ 600) ∧ ¬ (4500 ≤ n ∧ n ≤ 5500)) := by
  unfold classify IGNITION_MIN IGNITION_MAX YODA_MIN YODA_MAX
  split_ifs with h1 h2 <;> simp_all
  all_goals omega

/-- Claim C2, instantiated at count 450. -/
theorem classify_total_bands_witness :
    (classify 450 = FrequencyBand.IGNITION ↔ 300 ≤ 450 ∧ 450 ≤ 600) ∧
    (classify 450 = FrequencyBand.LINK_OK ↔ 4500 ≤ 450 ∧ 450 ≤ 5500) ∧
    (classify 450 = FrequencyBand.IDLE ↔
      ¬ (300 ≤ 450 ∧ 450 ≤ 600) ∧ ¬ (4500 ≤ 450 ∧ 450 ≤ 5500)) :=
  classify_total_bands 450 (by decide)

/-- Claim C3: the output driver realises the band-to-output table for every
prior latch state: IGNITION gives (ON, OFF, ON), LINK_OK gives
(OFF, toggled link LED, OFF), IDLE gives (OFF, ON, OFF). -/
theorem drive_output_table (f : Nat) (o : OutputState) :
    (classify f = FrequencyBand.IGNITION →
      driveOutputs f o = { ignitionLed := true, linkLed := false, mosGate := true }) ∧
    (classify f = FrequencyBand.LINK_OK →
      driveOutputs f o = { ignitionLed := false, linkLed := !o.linkLed, mosGate := false }) ∧
    (classify f = FrequencyBand.IDLE →
      driveOutputs f o = { ignitionLed := false, linkLed := true, mosGate := false }) := by
  refine ⟨?_, ?_, ?_⟩ <;> intro h <;> rw [driveOutputs_eq, h]

/-- Claim C3, instantiated: count 450 drives (ON, OFF, ON). -/
theorem drive_output_table_witness :
    driveOutputs 450 { ignitionLed := false, linkLed := true, mosGate := false } =
      { ignitionLed := true, linkLed := false, mosGate := true } :=
  (drive_output_table 450 _).1 (by decide)

/-- Claim C4: over `n` consecutive link-band cycles starting with the link
LED off, the LED alternates true, false, true, ...: after the k-th such
cycle it is lit exactly when k is odd, because each link-band cycle toggles
the one cross-cycle latch bit. -/
theorem link_toggle_alternates (p : Nat)
    (hp : classify (readTMR1 (p % 65536)) = FrequencyBand.LINK_OK)
    (s : MState) (h0 : s.tmr1 = 0) (hl : s.out.linkLed = false) (n : Nat) :
    (runCycles s (List.replicate n p)).out.linkLed = decide (n % 2 = 1) := by
  rw [linkLed_replicate p hp n s h0, hl]
  simp

/-- Claim C4, instantiated: after 3 link-band windows of 5000 edges the
link LED is lit. -/
theorem link_toggle_alternates_witness :
    (runCycles { tmr1 := 0, tmr1on := false, inputDisable := false, freq := 0
               , out := { ignitionLed := false, linkLed := false, mosGate := false } }
      (List.replicate 3 5000)).out.linkLed = decide (3 % 2 = 1) :=
  link_toggle_alternates 5000 (by decide) _ rfl rfl 3

/-- Claim C5 as stated is false: in two consecutive cycles reading counts
299 and then 301, the second count lies inside the inclusive ignition band
[300, 600], so it classifies as IGNITION, not IDLE. -/
theorem two_cycle_299_301_counterexample :
    ¬ (classify (cycleFreq (preLoop 0) 299) = FrequencyBand.IDLE ∧
       classify (cycleFreq (cycle (preLoop 0) 299) 301) = FrequencyBand.IDLE) := by
  decide

/-- Claim C5, amended: across two consecutive cycles with counts 299 and
then 301, the first classifies IDLE (just below IGNITION_MIN, excluded) and
the second classifies IGNITION (301 is inside the inclusive band). -/
theorem two_cycle_299_301 (s : MState) (h0 : s.tmr1 = 0) :
    classify (cycleFreq s 299) = FrequencyBand.IDLE ∧
    classify (cycleFreq (cycle s 299) 301) = FrequencyBand.IGNITION := by
  refine ⟨?_, ?_⟩
  · rw [cycleFreq_of_tmr1_zero s 299 h0]
    decide
  · rw [cycleFreq_of_tmr1_zero (cycle s 299) 301 (cycle_tmr1 s 299)]
    decide

/-- Claim C5 (amended), instantiated from the loop-entry state. -/
theorem two_cycle_299_301_witness :
    classify (cycleFreq (preLoop 5) 299) = FrequencyBand.IDLE ∧
    classify (cycleFreq (cycle (preLoop 5) 299) 301) = FrequencyBand.IGNITION :=
  two_cycle_299_301 (preLoop 5) rfl

/-- Claim C6: the counter is zeroed before every window opening: it is
zeroed before the loop is entered, every cycle ends with it zeroed
regardless of what it counted, the reset is each cycle's last event while
the enable is its first, and hence after any run the counter is zero. -/
theorem counter_reset_discipline (t0 : Nat) (ps : List Nat) :
    (preLoop t0).tmr1 = 0 ∧
    (∀ (s : MState) (p : Nat), (cycle s p).tmr1 = 0) ∧
    (∀ (s : MState) (p : Nat),
      (cycleTrace s p).getLast? = some CycleEv.resetTMR1 ∧
      (cycleTrace s p).head? = some (CycleEv.setTMR1ON true)) ∧
    (runCycles (preLoop t0) ps).tmr1 = 0 := by
  refine ⟨rfl, fun s p => rfl, fun s p => ⟨rfl, rfl⟩, ?_⟩
  exact runCycles_tmr1 ps (preLoop t0) rfl

/-- Claim C7: in every cycle's event trace, any read of the count register
is preceded by a de-assertion of the counter-enable bit, with no re-assertion
in between: outputs are always derived from a fully-closed window. -/
theorem disable_before_read (s : MState) (p : Nat) (j : Nat) (v : Nat)
    (hj : (cycleTrace s p)[j]? = some (CycleEv.readFreq v)) :
    ∃ i, i < j ∧ (cycleTrace s p)[i]? = some (CycleEv.setTMR1ON false) ∧
      ∀ k, i < k → k < j → (cycleTrace s p)[k]? ≠ some (CycleEv.setTMR1ON true) := by
  have ht : cycleTrace s p =
      [ CycleEv.setTMR1ON true, CycleEv.delayMs 1000, CycleEv.setTMR1ON false
      , CycleEv.readFreq (cycleFreq s p), CycleEv.driveOut ((cycle s p).out)
      , CycleEv.resetTMR1 ] := rfl
  rw [ht] at hj
  rw [ht]
  rcases j with _ | _ | _ | _ | _ | _ | j
  · simp at hj
  · simp at hj
  · simp at hj
  · exact ⟨2, by omega, rfl, fun k h1 h2 => absurd (by omega : (2 : Nat) < 2) (by omega)⟩
  · simp at hj
  · simp at hj
  · simp at hj

/-- Claim C7, instantiated on a concrete cycle: the read at index 3 is
preceded by the disable. -/
theorem disable_before_read_witness :
    ∃ i, i < 3 ∧
      (cycleTrace { tmr1 := 0, tmr1on := false, inputDisable := false, freq := 0
                  , out := { ignitionLed := false, linkLed := false, mosGate := false } }
        5000)[i]? = some (CycleEv.setTMR1ON false) ∧
      ∀ k, i < k → k < 3 →
        (cycleTrace { tmr1 := 0, tmr1on := false, inputDisable := false, freq := 0
                    , out := { ignitionLed := false, linkLed := false, mosGate := false } }
          5000)[k]? ≠ some (CycleEv.setTMR1ON true) :=
  disable_before_read _ 5000 3 5000 (by decide)

/-- Claim C8: for any starting latch state, the one-time startup sequence is
exactly 5 iterations of (ignition LED on / link LED off, 50 ms, ignition
LED off / link LED on, 50 ms); it never touches the MOS gate and depends on
no input, so it has no coupling to the classifier. -/
theorem startup_blink_selftest (o : OutputState) :
    startupTrace o = List.flatten (List.replicate 5
      [ BlinkEv.setIgnitionLed true, BlinkEv.setLinkLed false, BlinkEv.delayMs 50
      , BlinkEv.setIgnitionLed false, BlinkEv.setLinkLed true, BlinkEv.delayMs 50 ]) ∧
    startupBlink o = { ignitionLed := false, linkLed := true, mosGate := o.mosGate } :=
  ⟨rfl, rfl⟩

/-- Claim C9: from reset until the first window classifying IGNITION, the
MOS gate is never on: initialization clears it, the startup blink preserves
it, the loop is entered with it off, and it stays off through any run whose
windows never classify IGNITION. -/
theorem mosGate_off_before_first_ignition (t0 : Nat) (ps : List Nat)
    (h : ∀ p ∈ ps, classify (readTMR1 (p % 65536)) ≠ FrequencyBand.IGNITION) :
    (initState t0).out.mosGate = false ∧
    (startupBlink (initState t0).out).mosGate = (initState t0).out.mosGate ∧
    (preLoop t0).out.mosGate = false ∧
    (runCycles (preLoop t0) ps).out.mosGate = false := by
  refine ⟨rfl, rfl, rfl, ?_⟩
  exact runCycles_mosGate ps (preLoop t0) rfl rfl h

/-- Claim C9, instantiated on a run of three non-ignition windows. -/
theorem mosGate_off_before_first_ignition_witness :
    (initState 12345).out.mosGate = false ∧
    (startupBlink (initState 12345).out).mosGate = (initState 12345).out.mosGate ∧
    (preLoop 12345).out.mosGate = false ∧
    (runCycles (preLoop 12345) [0, 5000, 70000]).out.mosGate = false :=
  mosGate_off_before_first_ignition 12345 [0, 5000, 70000] (by decide)

/-- Claim C10: at first entry into the steady-state loop the link LED is on
and the ignition LED off (the last startup-blink half-cycle leaves them
so), and therefore the first link-band cycle after startup toggles the link
LED to off. -/
theorem first_loop_entry_link_state (t0 : Nat) (p : Nat)
    (hp : classify (readTMR1 (p % 65536)) = FrequencyBand.LINK_OK) :
    (preLoop t0).out = { ignitionLed := false, linkLed := true, mosGate := false } ∧
    (cycle (preLoop t0) p).out.linkLed = false := by
  refine ⟨rfl, ?_⟩
  rw [cycle_out, cycleFreq_of_tmr1_zero (preLoop t0) p rfl, driveOutputs_eq, hp]
  rfl

/-- Claim C10, instantiated with a 5000-edge link-band window. -/
theorem first_loop_entry_link_state_witness :
    (preLoop 0).out = { ignitionLed := false, linkLed := true, mosGate := false } ∧
    (cycle (preLoop 0) 5000).out.linkLed = false :=
  first_loop_entry_link_state 0 5000 (by decide)

end Ignition
